import Mathlib

/-!
Verification of the batch-expiry management commands of the repository
(`expire_old_entitlements`, `sync_courses`, `send_verification_expiry_email`)
against their natural-language specification.

The Python commands are shallowly embedded as pure Lean functions.  The
`expire_old_entitlements` file is Python 2 code (`six.moves`, no
`from __future__ import division`), so its `/` on non-negative integers is
floor division, i.e. `Nat` division here.
-/

namespace ExpireOldEntitlements

/--
Embeds `Command.handle` of
`common/djangoapps/entitlements/management/commands/expire_old_entitlements.py`,
line `batch_size = max(1, options.get('batch_size'))`.
The user-supplied `--batch-size` is an arbitrary integer.
-/
def effective_batch_size (supplied : Int) : Nat :=
  (max 1 supplied).toNat

/--
Embeds `num_batches = ((total - 1) / batch_size + 1) if total > 0 else 0`
(Python 2 floor division on non-negative integers).
-/
def num_batches (total : Nat) (batch_size : Nat) : Nat :=
  if total > 0 then (total - 1) / batch_size + 1 else 0

/--
Embeds the dispatch loop of `Command.handle`:
`for batch_num in range(num_batches): start = batch_num * batch_size + 1;
end = min(start + batch_size, total + 1); expire_old_entitlements.delay(start, end, ...)`.
Each dispatched task receives a half-open id range `[start, end)`.
-/
def batches (total : Nat) (batch_size : Nat) : List (Nat × Nat) :=
  (List.range (num_batches total batch_size)).map (fun batch_num =>
    (batch_num * batch_size + 1,
     min (batch_num * batch_size + 1 + batch_size) (total + 1)))

/--
Embeds the whole of `Command.handle`: with `--commit` the computed batches are
dispatched to the task queue; without it the command only reports the batch
count and returns before the dispatch loop.  The result is the list of
dispatched `(start, end)` ranges together with the reported batch count.
-/
def handle (total : Nat) (commit : Bool) (supplied_batch_size : Int) :
    List (Nat × Nat) × Nat :=
  let batch_size := effective_batch_size supplied_batch_size
  let n := num_batches total batch_size
  if commit then (batches total batch_size, n) else ([], n)

end ExpireOldEntitlements

namespace ExpireOldEntitlements

theorem effective_batch_size_pos (supplied : Int) :
    1 ≤ effective_batch_size supplied := by
  unfold effective_batch_size
  omega

theorem num_batches_eq_ceil (total batch_size : Nat) (hB : 1 ≤ batch_size) :
    num_batches total batch_size = (total + batch_size - 1) / batch_size := by
  unfold num_batches
  rcases Nat.eq_zero_or_pos total with h0 | hpos
  · subst h0
    simp [Nat.div_eq_of_lt (by omega : batch_size - 1 < batch_size)]
  · have hrw : total + batch_size - 1 = (total - 1) + batch_size := by omega
    rw [if_pos hpos, hrw, Nat.add_div_right _ (by omega)]

theorem num_batches_dvd (total batch_size : Nat) (hB : 1 ≤ batch_size)
    (hd : batch_size ∣ total) :
    num_batches total batch_size = total / batch_size := by
  rcases hd with ⟨q, hq⟩
  subst hq
  rcases Nat.eq_zero_or_pos q with h0 | hq0
  · subst h0
    simp [num_batches]
  · unfold num_batches
    rw [if_pos (by positivity)]
    have h1 : batch_size * q - 1 = (batch_size - 1) + batch_size * (q - 1) := by
      cases q with
      | zero => omega
      | succ n => rw [Nat.mul_succ]; simp; omega
    rw [h1, Nat.add_mul_div_left _ _ (by omega),
        Nat.div_eq_of_lt (by omega : batch_size - 1 < batch_size),
        Nat.mul_div_cancel_left _ (by omega : 0 < batch_size)]
    omega

end ExpireOldEntitlements

namespace ExpireOldEntitlements

theorem batches_length (total B : Nat) :
    (batches total B).length = num_batches total B := by
  simp [batches]

theorem batches_get (total B i : Nat) (h : i < (batches total B).length) :
    (batches total B).get ⟨i, h⟩ =
      (i * B + 1, min (i * B + 1 + B) (total + 1)) := by
  simp [batches]

theorem total_pos_of_lt_num_batches {total B i : Nat}
    (hi : i < num_batches total B) : 0 < total := by
  by_contra h
  have htz : total = 0 := by omega
  subst htz
  simp [num_batches] at hi

theorem start_le_total {total B i : Nat}
    (hi : i < num_batches total B) : i * B + 1 ≤ total := by
  have htot : 0 < total := total_pos_of_lt_num_batches hi
  have hle : i ≤ (total - 1) / B := by
    unfold num_batches at hi
    rw [if_pos htot] at hi
    omega
  have h1 : i * B ≤ ((total - 1) / B) * B := Nat.mul_le_mul_right _ hle
  have h2 : ((total - 1) / B) * B ≤ total - 1 := Nat.div_mul_le_self _ _
  omega

theorem lt_num_batches_of_le_total {total B k : Nat}
    (hk1 : 1 ≤ k) (hk2 : k ≤ total) :
    (k - 1) / B < num_batches total B := by
  have htot : 0 < total := by omega
  unfold num_batches
  rw [if_pos htot]
  have hdd : (k - 1) / B ≤ (total - 1) / B :=
    Nat.div_le_div_right (by omega : k - 1 ≤ total - 1)
  omega

theorem div_batch_bounds {B k : Nat} (hB : 1 ≤ B) (hk1 : 1 ≤ k) :
    ((k - 1) / B) * B + 1 ≤ k ∧ k ≤ ((k - 1) / B) * B + B := by
  obtain ⟨r, hr, hsum⟩ : ∃ r, r < B ∧ B * ((k - 1) / B) + r = k - 1 :=
    ⟨(k - 1) % B, Nat.mod_lt _ (by omega), Nat.div_add_mod _ _⟩
  rw [Nat.mul_comm]
  generalize B * ((k - 1) / B) = q at hsum ⊢
  omega

theorem batch_index_unique (B i j k : Nat)
    (hik : i * B + 1 ≤ k ∧ k ≤ i * B + B)
    (hjk : j * B + 1 ≤ k ∧ k ≤ j * B + B) : i = j := by
  by_contra hne
  rcases Nat.lt_or_ge i j with hij | hij
  · have h1 : (i + 1) * B ≤ j * B := Nat.mul_le_mul_right _ (by omega)
    rw [Nat.add_mul, Nat.one_mul] at h1
    omega
  · have hji : j < i := by omega
    have h1 : (j + 1) * B ≤ i * B := Nat.mul_le_mul_right _ (by omega)
    rw [Nat.add_mul, Nat.one_mul] at h1
    omega

end ExpireOldEntitlements

namespace SyncCourses

/--
One course run returned by the catalog service (`get_course_runs()`), as
consumed by `Command.handle` of
`cms/djangoapps/contentstore/management/commands/sync_courses.py`.
`already_exists` models the external modulestore state: whether
`create_new_course_in_store` raises `DuplicateCourseError` for this run.
-/
structure CourseRun where
  org : String
  course : String
  run : String
  title : String
  already_exists : Bool
deriving Repr, DecidableEq

/--
Outcome of the command: either a `CommandError` (Django exits with failure
status) or normal completion with the list of created course keys and the
number of duplicate warnings logged.
-/
inductive SyncResult where
  | commandError (msg : String)
  | ok (created : List (String × String × String)) (warnings : Nat)
deriving Repr, DecidableEq

/-- Whether the command terminated with a `CommandError`. -/
def SyncResult.isError : SyncResult → Bool
  | SyncResult.commandError _ => true
  | SyncResult.ok _ _ => false

/--
Embeds `Command.get_user`: `user_from_str` either resolves the identifier
(modelled by `lookup`) or raises `User.DoesNotExist`, which is turned into
`CommandError(u"No user {user} found.")`.
-/
def get_user (lookup : Option Nat) (user : String) : Except String Nat :=
  match lookup with
  | none => Except.error ("No user " ++ user ++ " found.")
  | some u => Except.ok u

/--
Embeds the `for course_run in course_runs` loop of `Command.handle`:
`create_new_course_in_store` is attempted for each run; a
`DuplicateCourseError` is caught, logged as a warning, and the loop
continues with the next run.  Returns the created course keys in order and
the number of warnings.
-/
def process_runs (runs : List CourseRun) : List (String × String × String) × Nat :=
  match runs with
  | [] => ([], 0)
  | r :: rest =>
    let tail := process_runs rest
    if r.already_exists then (tail.1, tail.2 + 1)
    else ((r.org, r.course, r.run) :: tail.1, tail.2)

/--
Embeds `Command.handle`: resolves the instructor first (failing fast with
`CommandError` before any course creation), then processes every course run.
-/
def handle (lookup : Option Nat) (instructor : String) (runs : List CourseRun) :
    SyncResult :=
  match get_user lookup instructor with
  | Except.error msg => SyncResult.commandError msg
  | Except.ok _ =>
    let res := process_runs runs
    SyncResult.ok res.1 res.2

end SyncCourses

namespace SendVerificationExpiryEmail

/--
Modelled from the spec: the configuration of `send_verification_expiry_email`
(`settings.VERIFICATION_EXPIRY_EMAIL`): `days_range` is the eligibility
threshold (DAYS_RANGE), `resend_days` the resend cooldown (RESEND_DAYS), and
`default_emails` the maximum resend count (DEFAULT_EMAILS).  The command's
own source is not among the provided files; only its test suite is.
-/
structure Config where
  days_range : Int
  resend_days : Int
  default_emails : Nat
deriving Repr, DecidableEq

/--
Modelled from the spec: an Expirable Record (§3): `eligible` is
`status = eligible` ('approved'), `eligibility_timestamp` is `expiry_date`,
`last_action_timestamp` is the nullable watermark `expiry_email_date`, and
`actions_taken` counts actions (emails) taken so far, bounded by the
configured maximum.  Timestamps are integers (days).
-/
structure ExpirableRecord where
  id : Nat
  eligible : Bool
  eligibility_timestamp : Int
  last_action_timestamp : Option Int
  actions_taken : Nat
deriving Repr, DecidableEq

/--
Modelled from the spec: the Selector predicate (§4.1):
status = eligible AND eligibility_timestamp ≤ now − threshold AND
(last_action_timestamp is null OR now − last_action_timestamp ≥ cooldown).
Per the §3 invariant the null watermark means "never actioned" only while
`actions_taken = 0`; once the resend bound is reached the watermark is set
to null *permanently to exclude the record from future selection*, so a
null watermark with `actions_taken > 0` does not select.
-/
def selectable (cfg : Config) (now : Int) (r : ExpirableRecord) : Bool :=
  r.eligible &&
  decide (r.eligibility_timestamp ≤ now - cfg.days_range) &&
  (match r.last_action_timestamp with
   | none => decide (r.actions_taken = 0)
   | some t => decide (cfg.resend_days ≤ now - t))

/--
Modelled from the spec: the Watermark Writer (§4.4): after a successful
action, sets `last_action_timestamp = now`; if the resend count bound is
reached, sets `last_action_timestamp = null` permanently to exclude the
record from future selection regardless of future eligibility.
-/
def apply_action (cfg : Config) (now : Int) (r : ExpirableRecord) :
    ExpirableRecord :=
  { r with
    actions_taken := r.actions_taken + 1,
    last_action_timestamp :=
      if cfg.default_emails ≤ r.actions_taken + 1 then none else some now }

/--
Result of one invocation: the record store after the run, the number of
emails actually sent, and the count the command reports in its logs.
-/
structure RunResult where
  records : List ExpirableRecord
  emails_sent : Nat
  reported : Nat
deriving Repr, DecidableEq

/--
Modelled from the spec: one invocation of `send_verification_expiry_email`
(§4.2–§4.3).  In dry-run mode the command computes and reports the number of
records that would have been emailed but sends nothing and mutates nothing;
in a normal run every selected record receives exactly one email and its
watermark is updated.
-/
def run_command (cfg : Config) (now : Int) (dry : Bool)
    (store : List ExpirableRecord) : RunResult :=
  let count := (store.filter (selectable cfg now)).length
  if dry then
    { records := store, emails_sent := 0, reported := count }
  else
    { records := store.map
        (fun r => if selectable cfg now r then apply_action cfg now r else r),
      emails_sent := count, reported := count }

end SendVerificationExpiryEmail

namespace ExpireOldEntitlements

theorem batches_nonempty_size {total B : Nat} (hB : 1 ≤ B)
    (i : Nat) (h : i < (batches total B).length) :
    ((batches total B).get ⟨i, h⟩).1 < ((batches total B).get ⟨i, h⟩).2 ∧
    ((batches total B).get ⟨i, h⟩).2 - ((batches total B).get ⟨i, h⟩).1 ≤ B := by
  rw [batches_get]
  have hnum : i < num_batches total B := by
    rw [← batches_length total B]; exact h
  have hst := start_le_total hnum
  constructor <;> simp <;> omega

theorem batches_contiguous {total B : Nat}
    (i : Nat) (h : i + 1 < (batches total B).length) :
    ((batches total B).get ⟨i, Nat.lt_of_succ_lt h⟩).2 =
    ((batches total B).get ⟨i + 1, h⟩).1 := by
  rw [batches_get, batches_get]
  have hnum : i + 1 < num_batches total B := by
    rw [← batches_length total B]; exact h
  have hst := start_le_total hnum
  have hmul : (i + 1) * B = i * B + B := by
    rw [Nat.add_mul, Nat.one_mul]
  rw [hmul] at hst ⊢
  omega

theorem batches_cover {total B : Nat} (hB : 1 ≤ B) (k : Nat) :
    (1 ≤ k ∧ k ≤ total) ↔
    ∃ i, ∃ (h : i < (batches total B).length),
      ((batches total B).get ⟨i, h⟩).1 ≤ k ∧ k < ((batches total B).get ⟨i, h⟩).2 := by
  constructor
  · rintro ⟨hk1, hk2⟩
    refine ⟨(k - 1) / B, ?_, ?_⟩
    · rw [batches_length]
      exact lt_num_batches_of_le_total hk1 hk2
    · rw [batches_get]
      have hb := div_batch_bounds hB hk1
      simp
      omega
  · rintro ⟨i, h, hlo, hhi⟩
    rw [batches_get] at hlo hhi
    simp at hlo hhi
    omega

theorem batches_no_overlap {total B : Nat}
    (i j k : Nat) (hi : i < (batches total B).length)
    (hj : j < (batches total B).length)
    (hik1 : ((batches total B).get ⟨i, hi⟩).1 ≤ k)
    (hik2 : k < ((batches total B).get ⟨i, hi⟩).2)
    (hjk1 : ((batches total B).get ⟨j, hj⟩).1 ≤ k)
    (hjk2 : k < ((batches total B).get ⟨j, hj⟩).2) : i = j := by
  rw [batches_get] at hik1 hik2 hjk1 hjk2
  simp at hik1 hik2 hjk1 hjk2
  exact batch_index_unique B i j k ⟨by omega, by omega⟩ ⟨by omega, by omega⟩

theorem handle_commit_dispatches (total : Nat) (s : Int) :
    (handle total true s).1 = batches total (effective_batch_size s) := by
  simp [handle]

end ExpireOldEntitlements

/--
C1: for the expire_old_entitlements command, with total record count `total`
and (effective) batch size `B ≥ 1`, the computed number of batches equals
ceil(total/B), i.e. `(total + B - 1) / B`, which for `total > 0` is
`(total - 1) / B + 1`; when `total = 0` zero batches are computed and the
command enqueues nothing; this covers the edge case `B ∣ total`, where the
batch count is exactly `total / B`.
-/
theorem claim_C1 :
    (∀ total B : Nat, 1 ≤ B →
      ExpireOldEntitlements.num_batches total B = (total + B - 1) / B ∧
      (0 < total →
        ExpireOldEntitlements.num_batches total B = (total - 1) / B + 1) ∧
      (B ∣ total →
        ExpireOldEntitlements.num_batches total B = total / B)) ∧
    (∀ (commit : Bool) (s : Int),
      ExpireOldEntitlements.handle 0 commit s = ([], 0)) := by
  constructor
  · intro total B hB
    refine ⟨ExpireOldEntitlements.num_batches_eq_ceil total B hB, ?_,
            ExpireOldEntitlements.num_batches_dvd total B hB⟩
    intro htot
    simp [ExpireOldEntitlements.num_batches, htot]
  · intro commit s
    cases commit <;>
      simp [ExpireOldEntitlements.handle, ExpireOldEntitlements.num_batches,
            ExpireOldEntitlements.batches]

/-- Witness for C1 at total = 10, batch size = 4 (and 7 divisible by 7). -/
theorem claim_C1_witness :
    ExpireOldEntitlements.num_batches 10 4 = (10 + 4 - 1) / 4 ∧
    ExpireOldEntitlements.num_batches 14 7 = 14 / 7 ∧
    ExpireOldEntitlements.handle 0 true (-2) = ([], 0) :=
  ⟨(claim_C1.1 10 4 (by decide)).1,
   (claim_C1.1 14 7 (by decide)).2.2 (by decide),
   claim_C1.2 true (-2)⟩

/--
C2: for every commit run of expire_old_entitlements with effective batch
size `B ≥ 1`, the dispatched batch ranges `[start, end)` are non-empty and of
size at most `B`, consecutive batches are contiguous (ordered,
non-overlapping), every id `k` with `1 ≤ k ≤ total` lies in exactly one
batch (union covers the id range exactly once), and the commit run
dispatches precisely these batches; in particular, with batch size 1 and
3 records, exactly 3 batches are dispatched, each containing 1 record.
-/
theorem claim_C2 (total B : Nat) (hB : 1 ≤ B) :
    (∀ s : Int, (ExpireOldEntitlements.handle total true s).1 =
        ExpireOldEntitlements.batches total
          (ExpireOldEntitlements.effective_batch_size s)) ∧
    (∀ i (h : i < (ExpireOldEntitlements.batches total B).length),
        ((ExpireOldEntitlements.batches total B).get ⟨i, h⟩).1 <
          ((ExpireOldEntitlements.batches total B).get ⟨i, h⟩).2 ∧
        ((ExpireOldEntitlements.batches total B).get ⟨i, h⟩).2 -
          ((ExpireOldEntitlements.batches total B).get ⟨i, h⟩).1 ≤ B) ∧
    (∀ i (h : i + 1 < (ExpireOldEntitlements.batches total B).length),
        ((ExpireOldEntitlements.batches total B).get
            ⟨i, Nat.lt_of_succ_lt h⟩).2 =
        ((ExpireOldEntitlements.batches total B).get ⟨i + 1, h⟩).1) ∧
    (∀ k : Nat, (1 ≤ k ∧ k ≤ total) ↔
        ∃ i, ∃ (h : i < (ExpireOldEntitlements.batches total B).length),
          ((ExpireOldEntitlements.batches total B).get ⟨i, h⟩).1 ≤ k ∧
          k < ((ExpireOldEntitlements.batches total B).get ⟨i, h⟩).2) ∧
    (∀ i j k, ∀ (hi : i < (ExpireOldEntitlements.batches total B).length)
        (hj : j < (ExpireOldEntitlements.batches total B).length),
        ((ExpireOldEntitlements.batches total B).get ⟨i, hi⟩).1 ≤ k →
        k < ((ExpireOldEntitlements.batches total B).get ⟨i, hi⟩).2 →
        ((ExpireOldEntitlements.batches total B).get ⟨j, hj⟩).1 ≤ k →
        k < ((ExpireOldEntitlements.batches total B).get ⟨j, hj⟩).2 →
        i = j) ∧
    (ExpireOldEntitlements.handle 3 true 1 = ([(1, 2), (2, 3), (3, 4)], 3)) := by
  refine ⟨ExpireOldEntitlements.handle_commit_dispatches total,
          fun i h => ExpireOldEntitlements.batches_nonempty_size hB i h,
          fun i h => ExpireOldEntitlements.batches_contiguous i h,
          fun k => ExpireOldEntitlements.batches_cover hB k,
          fun i j k hi hj h1 h2 h3 h4 =>
            ExpireOldEntitlements.batches_no_overlap i j k hi hj h1 h2 h3 h4,
          by decide⟩

/--
Witness for C2 at total = 3, batch size = 1: id 2 is covered by a batch,
and the commit run dispatches three singleton batches.
-/
theorem claim_C2_witness :
    (∃ i, ∃ (h : i < (ExpireOldEntitlements.batches 3 1).length),
      ((ExpireOldEntitlements.batches 3 1).get ⟨i, h⟩).1 ≤ 2 ∧
      2 < ((ExpireOldEntitlements.batches 3 1).get ⟨i, h⟩).2) ∧
    ExpireOldEntitlements.handle 3 true 1 = ([(1, 2), (2, 3), (3, 4)], 3) :=
  ⟨((claim_C2 3 1 (by decide)).2.2.2.1 2).mp (by decide),
   (claim_C2 3 1 (by decide)).2.2.2.2.2⟩

/--
C10: expire_old_entitlements clamps the supplied `--batch-size` to a minimum
of 1 (`max(1, given)`), so for every integer input, including zero and
negative values, the effective batch size is at least 1 (the batch-count
division is never by zero) and every dispatched batch range is well-formed
and non-empty (`start < end`).
-/
theorem claim_C10 (s : Int) :
    1 ≤ ExpireOldEntitlements.effective_batch_size s ∧
    (∀ total : Nat, ∀ p : Nat × Nat,
      p ∈ (ExpireOldEntitlements.handle total true s).1 → p.1 < p.2) := by
  refine ⟨ExpireOldEntitlements.effective_batch_size_pos s, ?_⟩
  intro total p hp
  rw [ExpireOldEntitlements.handle_commit_dispatches] at hp
  rcases List.mem_iff_get.mp hp with ⟨⟨i, hi⟩, hget⟩
  have := ExpireOldEntitlements.batches_nonempty_size
    (ExpireOldEntitlements.effective_batch_size_pos s) i hi
  rw [hget] at this
  exact this.1

/-- Witness for C10 at supplied batch size −5, total = 3, batch (1, 2). -/
theorem claim_C10_witness :
    1 ≤ ExpireOldEntitlements.effective_batch_size (-5) ∧
    ((1, 2) : Nat × Nat).1 < ((1, 2) : Nat × Nat).2 :=
  ⟨(claim_C10 (-5)).1, (claim_C10 (-5)).2 3 (1, 2) (by decide)⟩

namespace SyncCourses

theorem process_runs_eq (runs : List CourseRun) :
    process_runs runs =
      ((runs.filter (fun r => !r.already_exists)).map
         (fun r => (r.org, r.course, r.run)),
       (runs.filter (fun r => r.already_exists)).length) := by
  induction runs with
  | nil => rfl
  | cons r rest ih =>
    by_cases hd : r.already_exists <;>
      simp [process_runs, hd, ih]

end SyncCourses

namespace SendVerificationExpiryEmail

theorem filter_selectable_nil (cfg : Config) (now : Int) :
    ∀ store : List ExpirableRecord,
      (∀ r ∈ store, selectable cfg now r = false) →
      store.filter (selectable cfg now) = [] := by
  intro store h
  induction store with
  | nil => rfl
  | cons r rest ih =>
    have hr := h r (by simp)
    simp [List.filter, hr]
    intro x hx
    exact h x (by simp [hx])

theorem map_action_id (cfg : Config) (now : Int) :
    ∀ store : List ExpirableRecord,
      (∀ r ∈ store, selectable cfg now r = false) →
      store.map (fun r => if selectable cfg now r then apply_action cfg now r
                          else r) = store := by
  intro store h
  induction store with
  | nil => rfl
  | cons r rest ih =>
    have hr := h r (by simp)
    simp [hr]
    exact ih (fun x hx => h x (by simp [hx]))

theorem run_command_no_matches (cfg : Config) (now : Int)
    (store : List ExpirableRecord)
    (h : ∀ r ∈ store, selectable cfg now r = false) :
    run_command cfg now false store =
      { records := store, emails_sent := 0, reported := 0 } := by
  unfold run_command
  rw [filter_selectable_nil cfg now store h, map_action_id cfg now store h]
  simp

end SendVerificationExpiryEmail

/--
C7: when sync_courses is invoked with an instructor identifier that resolves
to no user, the command fails fast with a `CommandError` naming the user,
before any course creation is attempted: the result is the error for every
list of course runs, so no course is created (no partial side effects).
-/
theorem claim_C7 (instructor : String) (runs : List SyncCourses.CourseRun) :
    SyncCourses.handle none instructor runs =
      SyncCourses.SyncResult.commandError
        ("No user " ++ instructor ++ " found.") := by
  rfl

/--
C8: when sync_courses hits a `DuplicateCourseError` for a course run, the
exception is caught (a warning is counted) and processing continues: for
every input list and resolved instructor, the created courses are exactly
the non-duplicate runs in order (so every non-duplicate run after a
duplicate is still created), and the warnings count the duplicates.
-/
theorem claim_C8 (u : Nat) (instructor : String)
    (runs : List SyncCourses.CourseRun) :
    SyncCourses.handle (some u) instructor runs =
      SyncCourses.SyncResult.ok
        ((runs.filter (fun r => !r.already_exists)).map
           (fun r => (r.org, r.course, r.run)))
        ((runs.filter (fun r => r.already_exists)).length) ∧
    (∀ r ∈ runs, r.already_exists = false →
      (r.org, r.course, r.run) ∈
        (runs.filter (fun r => !r.already_exists)).map
          (fun r => (r.org, r.course, r.run))) := by
  constructor
  · show SyncCourses.SyncResult.ok (SyncCourses.process_runs runs).1
        (SyncCourses.process_runs runs).2 = _
    rw [SyncCourses.process_runs_eq]
  · intro r hr hf
    exact List.mem_map.mpr ⟨r, List.mem_filter.mpr ⟨hr, by simp [hf]⟩, rfl⟩

/--
Witness for C8: a duplicate first run followed by a non-duplicate run; the
non-duplicate run is still created and one warning is counted.
-/
theorem claim_C8_witness :
    SyncCourses.handle (some 7) "staff"
        [⟨"orgA", "c1", "r1", "t1", true⟩, ⟨"orgB", "c2", "r2", "t2", false⟩] =
      SyncCourses.SyncResult.ok [("orgB", "c2", "r2")] 1 ∧
    ("orgB", "c2", "r2") ∈
      ([⟨"orgA", "c1", "r1", "t1", true⟩,
        (⟨"orgB", "c2", "r2", "t2", false⟩ : SyncCourses.CourseRun)].filter
          (fun r => !r.already_exists)).map
        (fun r => (r.org, r.course, r.run)) :=
  ⟨(claim_C8 7 "staff" _).1,
   (claim_C8 7 "staff" _).2 ⟨"orgB", "c2", "r2", "t2", false⟩ (by simp) rfl⟩

/--
Counterexample to C9 as stated: sync_courses does have a command-engineered
failure path.  Invoked with an instructor identifier that resolves to no
user, `Command.handle` raises `CommandError` (which Django turns into a
non-zero exit status), so it is not the case that every command completes
with success status on every input.
-/
theorem claim_C9_counterexample :
    (SyncCourses.handle none "ghost" []).isError = true := by
  rfl

/--
C9 (amended): except for sync_courses failing fast with a `CommandError`
when the instructor identifier resolves to no user, the commands complete
with success status: sync_courses with a resolved instructor never errors,
finding no matching eligible records is not an error for
send_verification_expiry_email (the command completes with zero actions and
an unchanged store, reporting zero), and expire_old_entitlements with zero
records completes enqueuing nothing.
-/
theorem claim_C9 :
    (∀ (u : Nat) (instructor : String) (runs : List SyncCourses.CourseRun),
      (SyncCourses.handle (some u) instructor runs).isError = false) ∧
    (∀ (cfg : SendVerificationExpiryEmail.Config) (now : Int)
        (store : List SendVerificationExpiryEmail.ExpirableRecord),
      (∀ r ∈ store, SendVerificationExpiryEmail.selectable cfg now r = false) →
      SendVerificationExpiryEmail.run_command cfg now false store =
        { records := store, emails_sent := 0, reported := 0 }) ∧
    (∀ (commit : Bool) (s : Int),
      ExpireOldEntitlements.handle 0 commit s = ([], 0)) := by
  refine ⟨fun u instructor runs => rfl,
          SendVerificationExpiryEmail.run_command_no_matches, ?_⟩
  intro commit s
  cases commit <;>
    simp [ExpireOldEntitlements.handle, ExpireOldEntitlements.num_batches,
          ExpireOldEntitlements.batches]

/--
Witness for C9 (amended): a store containing one ineligible record yields a
successful run with zero actions, and a resolved instructor never errors.
-/
theorem claim_C9_witness :
    (SyncCourses.handle (some 7) "staff" []).isError = false ∧
    SendVerificationExpiryEmail.run_command ⟨30, 15, 2⟩ 100 false
        [⟨1, false, 0, none, 0⟩] =
      { records := [⟨1, false, 0, none, 0⟩], emails_sent := 0, reported := 0 } :=
  ⟨claim_C9.1 7 "staff" [],
   claim_C9.2.1 ⟨30, 15, 2⟩ 100 [⟨1, false, 0, none, 0⟩]
     (by intro r hr; simp at hr; subst hr; rfl)⟩

/--
C3: in preview/dry-run mode the commands enqueue no task, send no email and
leave every record's watermark (`last_action_timestamp` /
`expiry_email_date`) unchanged, while still reporting the count of batches
or records that would have been processed: expire_old_entitlements without
`--commit` dispatches nothing but reports the batch count, and
send_verification_expiry_email with `--dry-run` returns the store unchanged,
sends zero emails, and reports exactly the count a commit run would act on.
-/
theorem claim_C3 :
    (∀ (total : Nat) (s : Int),
      ExpireOldEntitlements.handle total false s =
        ([], ExpireOldEntitlements.num_batches total
               (ExpireOldEntitlements.effective_batch_size s))) ∧
    (∀ (cfg : SendVerificationExpiryEmail.Config) (now : Int)
        (store : List SendVerificationExpiryEmail.ExpirableRecord),
      SendVerificationExpiryEmail.run_command cfg now true store =
        { records := store, emails_sent := 0,
          reported :=
            (store.filter (SendVerificationExpiryEmail.selectable cfg now)).length } ∧
      (SendVerificationExpiryEmail.run_command cfg now true store).reported =
        (SendVerificationExpiryEmail.run_command cfg now false store).emails_sent) := by
  constructor
  · intro total s
    simp [ExpireOldEntitlements.handle]
  · intro cfg now store
    constructor <;> simp [SendVerificationExpiryEmail.run_command]

open SendVerificationExpiryEmail

/--
C5: for an eligible record with null watermark whose `eligibility_timestamp`
is exactly at or past the threshold (`now − days_range`), one commit run of
send_verification_expiry_email produces exactly one action (email) and sets
`last_action_timestamp` to the run's timestamp (with the configured maximum
resend count above 1, as DEFAULT_EMAILS is); for a record whose
`eligibility_timestamp` is one unit short of the threshold window, no
action is produced and `last_action_timestamp` stays null.
-/
theorem claim_C5 (cfg : Config) (now : Int) (r : ExpirableRecord)
    (hmax : 1 < cfg.default_emails)
    (helig : r.eligible = true)
    (hnull : r.last_action_timestamp = none)
    (hzero : r.actions_taken = 0) :
    (r.eligibility_timestamp ≤ now - cfg.days_range →
      run_command cfg now false [r] =
        { records := [{ r with actions_taken := 1,
                               last_action_timestamp := some now }],
          emails_sent := 1, reported := 1 }) ∧
    (r.eligibility_timestamp = now - cfg.days_range + 1 →
      run_command cfg now false [r] =
        { records := [r], emails_sent := 0, reported := 0 }) := by
  constructor
  · intro h
    have hsel : selectable cfg now r = true := by
      simp [selectable, helig, hnull, hzero, h]
    have hif : ¬ (cfg.default_emails ≤ r.actions_taken + 1) := by omega
    simp [run_command, hsel, apply_action, hif, hzero]
    omega
  · intro h
    have hne : ¬ (r.eligibility_timestamp ≤ now - cfg.days_range) := by omega
    have hsel : selectable cfg now r = false := by
      simp [selectable, hne]
    exact run_command_no_matches cfg now [r]
      (by intro x hx; simp at hx; subst hx; exact hsel)

/--
Witness for C5: with days_range 30, cooldown 15, maximum 2 emails at time
100, a fresh approved record expired at 70 (exactly at threshold) gets one
email and watermark 100; a record expired at 71 (one unit short) gets none.
-/
theorem claim_C5_witness :
    run_command ⟨30, 15, 2⟩ 100 false [⟨1, true, 70, none, 0⟩] =
      { records := [⟨1, true, 70, some 100, 1⟩],
        emails_sent := 1, reported := 1 } ∧
    run_command ⟨30, 15, 2⟩ 100 false [⟨1, true, 71, none, 0⟩] =
      { records := [⟨1, true, 71, none, 0⟩],
        emails_sent := 0, reported := 0 } :=
  ⟨(claim_C5 ⟨30, 15, 2⟩ 100 ⟨1, true, 70, none, 0⟩ (by decide) rfl rfl rfl).1
     (by decide),
   (claim_C5 ⟨30, 15, 2⟩ 100 ⟨1, true, 71, none, 0⟩ (by decide) rfl rfl rfl).2
     (by decide)⟩

/--
C6: re-running send_verification_expiry_email within the resend cooldown
after a record's successful action produces zero additional actions for
that record: whatever the watermark written by the action (the run's
timestamp, or null when the bound was reached), the second run sends no
email and leaves the record unchanged.
-/
theorem claim_C6 (cfg : Config) (now later : Int) (r : ExpirableRecord)
    (hcool : later - now < cfg.resend_days) :
    (run_command cfg later false [apply_action cfg now r]).emails_sent = 0 ∧
    (run_command cfg later false [apply_action cfg now r]).records =
      [apply_action cfg now r] := by
  have hsel : selectable cfg later (apply_action cfg now r) = false := by
    unfold selectable apply_action
    by_cases hc : cfg.default_emails ≤ r.actions_taken + 1
    · simp [hc]
    · have hd : ¬ (cfg.resend_days ≤ later - now) := by omega
      simp [hc, hd]
  rw [run_command_no_matches cfg later _
    (by intro x hx; simp at hx; subst hx; exact hsel)]
  exact ⟨rfl, rfl⟩

/--
Witness for C6: after the action at time 100, re-running at time 101 (within
the 15-day cooldown) sends nothing and changes nothing.
-/
theorem claim_C6_witness :
    (run_command ⟨30, 15, 2⟩ 101 false
        [apply_action ⟨30, 15, 2⟩ 100 ⟨1, true, 70, none, 0⟩]).emails_sent = 0 ∧
    (run_command ⟨30, 15, 2⟩ 101 false
        [apply_action ⟨30, 15, 2⟩ 100 ⟨1, true, 70, none, 0⟩]).records =
      [apply_action ⟨30, 15, 2⟩ 100 ⟨1, true, 70, none, 0⟩] :=
  claim_C6 ⟨30, 15, 2⟩ 100 101 ⟨1, true, 70, none, 0⟩ (by decide)

/--
C4: once a record's resend count reaches the configured maximum
(DEFAULT_EMAILS), the watermark `last_action_timestamp` is set to null and
the record is excluded from every future selection regardless of its
eligibility or the run time; until the maximum is reached, each re-run
after the cooldown has elapsed produces exactly one more action,
incrementing the count by one.
-/
theorem claim_C4 (cfg : Config) (now : Int) (r : ExpirableRecord) :
    (cfg.default_emails ≤ r.actions_taken + 1 →
      (apply_action cfg now r).last_action_timestamp = none) ∧
    (∀ (later : Int) (x : ExpirableRecord),
      x.last_action_timestamp = none → 0 < x.actions_taken →
      selectable cfg later x = false) ∧
    (r.eligible = true → r.eligibility_timestamp ≤ now - cfg.days_range →
      ∀ t, r.last_action_timestamp = some t → cfg.resend_days ≤ now - t →
      (run_command cfg now false [r]).emails_sent = 1 ∧
      (run_command cfg now false [r]).records = [apply_action cfg now r] ∧
      (apply_action cfg now r).actions_taken = r.actions_taken + 1) := by
  refine ⟨?_, ?_, ?_⟩
  · intro h
    simp [apply_action, h]
  · intro later x hx hpos
    have hne : x.actions_taken ≠ 0 := by omega
    simp [selectable, hx, hne]
  · intro helig hexp t ht hcd
    have hsel : selectable cfg now r = true := by
      simp [selectable, helig, hexp, ht, hcd]
    refine ⟨?_, ?_, rfl⟩ <;> simp [run_command, hsel]

/--
Witness for C4: with maximum 2, a record that already had one email takes
its second (final) action: one email is sent, the watermark becomes null,
and the record is from then on never selectable, even at time 1000.
-/
theorem claim_C4_witness :
    (apply_action ⟨30, 15, 2⟩ 100 ⟨1, true, 70, some 80, 1⟩).last_action_timestamp
        = none ∧
    selectable ⟨30, 15, 2⟩ 1000 ⟨1, true, 70, none, 2⟩ = false ∧
    (run_command ⟨30, 15, 2⟩ 100 false [⟨1, true, 70, some 80, 1⟩]).emails_sent
        = 1 :=
  ⟨(claim_C4 ⟨30, 15, 2⟩ 100 ⟨1, true, 70, some 80, 1⟩).1 (by decide),
   (claim_C4 ⟨30, 15, 2⟩ 100 ⟨1, true, 70, some 80, 1⟩).2.1 1000
     ⟨1, true, 70, none, 2⟩ rfl (by decide),
   ((claim_C4 ⟨30, 15, 2⟩ 100 ⟨1, true, 70, some 80, 1⟩).2.2 rfl (by decide)
     80 rfl (by decide)).1⟩
